import Mathlib

/-
Shallow embedding of src/1.py, a FastAPI service with a single POST
endpoint generate_insights.  Python dictionaries are modelled as
insertion-ordered association lists, pandas DataFrames as association
lists from reporting date to a list of line items, and the two external
collaborators (the yfinance market-data provider and the Groq LLM
client) as oracle parameters.  Exceptions are modelled explicitly so
that the try/except structure of the handler can be reproduced exactly:
in particular json.JSONDecodeError is a subclass of ValueError, and
fastapi.HTTPException is not.
-/

/-- A JSON-serialisable Python value as it appears in the financial
tables.  Python booleans are a subtype of int, which matters for the
isinstance filter in generate_graph_data; floats are modelled as
rationals (no float arithmetic is performed by the code); missing
values are modelled by the none constructor. -/
inductive Value where
  | int (n : Int)
  | float (q : Rat)
  | bool (b : Bool)
  | str (s : String)
  | none
deriving DecidableEq

/-- Models the Python test isinstance(value, (int, float)) on line 78.
True for bool because Python bool is a subclass of int. -/
def isinstance_int_float : Value → Bool
  | .int _ => true
  | .float _ => true
  | .bool _ => true
  | .str _ => false
  | .none => false

/-- One financial statement: a mapping from reporting date to the line
items of that date, as produced by DataFrame.to_dict. -/
abbrev FinTable : Type := List (String × List (String × Value))

/-- The financial_data dictionary assembled on lines 106 to 110. -/
structure FinData where
  balance_sheet : FinTable
  income_statement : FinTable
  cash_flow : FinTable
deriving DecidableEq

/-- One element of the answer data list built on line 82. -/
structure AnswerItem where
  label : String
  value : Value
  valueColor : String
deriving DecidableEq

/-- The answer dictionary built on lines 79 to 83. -/
structure GraphAnswer where
  message : String
  type : String
  data : List AnswerItem
deriving DecidableEq

/-- The per-date graph dictionary built on lines 76 to 83. -/
structure GraphData where
  query : String
  result : List (String × Value)
  answer : GraphAnswer
deriving DecidableEq

/-- The fixed bar colour used on line 82. -/
def barColor : String := "hsl(120, 70%, 50%)"

/-- The graph_data dictionary the loop body of lines 75 to 84 builds
for one reporting date. -/
def mkGraphEntry (date : String) (row : List (String × Value)) : GraphData :=
  let result := row.filter (fun q => isinstance_int_float q.2)
  { query := "Plot a bar chart for the balance sheet data on " ++ date,
    result := result,
    answer :=
      { message := "The bar chart has been plotted successfully",
        type := "Bar Chart",
        data := result.map (fun q =>
          { label := q.1, value := q.2, valueColor := barColor }) } }

/-- Embedding of generate_graph_data, lines 72 to 86 of src/1.py. -/
def generate_graph_data (financial_data : FinData) : List (String × GraphData) :=
  financial_data.balance_sheet.map (fun p => (p.1, mkGraphEntry p.1 p.2))

/-- The Python exceptions that can reach the try/except of the handler.
jsonDecodeError models json.JSONDecodeError, which subclasses
ValueError; httpException models fastapi.HTTPException, which does not. -/
inductive PyExc where
  | valueError (msg : String)
  | jsonDecodeError (msg : String)
  | httpException (status : Nat) (detail : String)
  | attributeError (msg : String)
deriving DecidableEq

/-- Whether the except ValueError branch on line 156 catches the
exception. -/
def PyExc.isValueError : PyExc → Bool
  | .valueError _ => true
  | .jsonDecodeError _ => true
  | .httpException _ _ => false
  | .attributeError _ => false

/-- Models the Python str(e) used when building the error body.  For
HTTPException, Starlette renders status code, a colon and the detail. -/
def PyExc.text : PyExc → String
  | .valueError m => m
  | .jsonDecodeError m => m
  | .httpException s d => toString s ++ ": " ++ d
  | .attributeError m => m

/-- Oracle for the market-data provider: either the three statement
DataFrames, or an exception raised inside the try of
get_financial_data. -/
inductive ProviderResult where
  | throws (msg : String)
  | tables (bs inc cf : FinTable)
deriving DecidableEq

/-- Embedding of get_financial_data, lines 46 to 58 of src/1.py.  An
exception from the provider, or an empty table, becomes an
HTTPException with status_code 400. -/
def get_financial_data : ProviderResult → Except PyExc (FinTable × FinTable × FinTable)
  | .throws m => .error (.httpException 400 ("Error fetching financial data: " ++ m))
  | .tables bs inc cf =>
    if bs.isEmpty || inc.isEmpty || cf.isEmpty then
      .error (.httpException 400
        "Error fetching financial data: Invalid ticker symbol or no data available.")
    else .ok (bs, inc, cf)

/-- Oracle for one Groq chat-completion call: the text of the first
choice, or a GroqError message. -/
inductive LLMResult where
  | ok (text : String)
  | err (msg : String)
deriving DecidableEq

/-- Whether the call succeeded. -/
def LLMResult.isOk : LLMResult → Bool
  | .ok _ => true
  | .err _ => false

/-- One chat-completion request as issued on lines 63 to 66. -/
structure LLMCall where
  prompt : String
  model : String
deriving DecidableEq

/-- The fixed model identifier on line 65. -/
def groqModel : String := "llama3-8b-8192"

/-- Embedding of generate_insights_from_groq, lines 61 to 69: a
GroqError becomes an HTTPException with status_code 500. -/
def generate_insights_from_groq : LLMResult → Except PyExc String
  | .ok text => .ok text
  | .err m => .error (.httpException 500 ("Error generating insights: " ++ m))

/-- The f-string on lines 126 to 132, including the three trailing
spaces after the ticker and the sixteen-space indentation. -/
def competitorPrompt (sec ticker value_proposition : String) : String :=
  "\n                Section: " ++ sec ++
  "\n                Company: " ++ ticker ++ "   " ++
  "\n                Value Proposition: " ++ value_proposition ++
  "\n                \n                Identify and analyze key competitors of the company.\n                "

/-- The f-string on lines 134 to 140. -/
def genericPrompt (sec ticker value_proposition : String) : String :=
  "\n                Section: " ++ sec ++
  "\n                Company: " ++ ticker ++
  "\n                Value Proposition: " ++ value_proposition ++
  "\n                \n                Analyze the information and provide detailed insights.\n                "

/-- The prompt chosen on lines 125 to 140 for a given section. -/
def buildPrompt (ticker value_proposition sec : String) : String :=
  if sec == "Key Competitors" then competitorPrompt sec ticker value_proposition
  else genericPrompt sec ticker value_proposition

/-- Python dictionary assignment d[k] = v on an insertion-ordered
dictionary: an existing key keeps its position and has its value
replaced, a new key is appended. -/
def dictInsert (k v : String) : List (String × String) → List (String × String)
  | [] => [(k, v)]
  | (k0, v0) :: rest => if k0 == k then (k, v) :: rest else (k0, v0) :: dictInsert k v rest

/-- The five fixed section labels, lines 113 to 119. -/
def fixedSections : List String :=
  ["Earnings Data Analysis", "Financial Data Analysis", "Brainstorm Values",
   "Financial Prediction", "Key Competitors"]

/-- The section list after value_proposition is appended on line 121. -/
def pySections (value_proposition : String) : List String :=
  fixedSections ++ [value_proposition]

/-- The sequential section loop of lines 124 to 142.  The llm oracle is
indexed by the number of calls already made; the second component is
the trace of chat-completion requests actually issued, including the
one that failed. -/
def insightsLoop (ticker value_proposition : String) (llm : Nat → LLMResult) :
    List String → Nat → List (String × String) →
    Except PyExc (List (String × String)) × List LLMCall
  | [], _, acc => (.ok acc, [])
  | sec :: rest, n, acc =>
    let prompt := buildPrompt ticker value_proposition sec
    match generate_insights_from_groq (llm n) with
    | .error e => (.error e, [⟨prompt, groqModel⟩])
    | .ok text =>
      let r := insightsLoop ticker value_proposition llm rest (n + 1) (dictInsert sec text acc)
      (r.1, ⟨prompt, groqModel⟩ :: r.2)

/-- Outcome of await request.json() followed by req_body.get: the body
fails to parse as JSON (json.JSONDecodeError, a ValueError), or parses
to a non-dictionary so that .get raises AttributeError, or is a
dictionary whose ticker and value_proposition fields are absent or
strings. -/
inductive BodyParse where
  | badJSON (msg : String)
  | nonObject (msg : String)
  | obj (ticker value_proposition : Option String)
deriving DecidableEq

/-- Python truthiness test `not x` for an optional string field: absent
fields and empty strings are falsy. -/
def pyFalsy : Option String → Bool
  | Option.none => true
  | Option.some s => s.isEmpty

/-- The JSON body of the response: the error object built on lines 157
and 159, or the success object built on lines 147 to 151. -/
inductive RespBody where
  | error (msg : String)
  | success (financial_data : FinData) (insights : List (String × String))
      (graphs : List (String × GraphData))
deriving DecidableEq

/-- Projection used in the theorems: the insights entries of a success
body, if any.  An error body carries no insights key. -/
def RespBody.insightsEntries : RespBody → Option (List (String × String))
  | .success _ ins _ => some ins
  | .error _ => Option.none

/-- An HTTP response: status code and JSON body. -/
structure Response where
  status : Nat
  body : RespBody
deriving DecidableEq

/-- Result of one handler invocation, together with the externally
visible calls it made. -/
structure HandlerResult where
  response : Response
  providerCalled : Bool
  llmCalls : List LLMCall
deriving DecidableEq

/-- The except clauses on lines 156 to 159: a ValueError (or subclass)
becomes status 400, any other exception becomes status 500, with body
error str(e) in both cases. -/
def catchResponse (e : PyExc) : Response :=
  if e.isValueError then ⟨400, .error e.text⟩ else ⟨500, .error e.text⟩

/-- Embedding of the POST handler generate_insights, lines 88 to 159 of
src/1.py. -/
def generate_insights (body : BodyParse) (pr : ProviderResult) (llm : Nat → LLMResult) :
    HandlerResult :=
  match body with
  | .badJSON m => ⟨catchResponse (.jsonDecodeError m), false, []⟩
  | .nonObject m => ⟨catchResponse (.attributeError m), false, []⟩
  | .obj tk vp =>
    if pyFalsy tk then
      ⟨catchResponse (.valueError "Ticker value cannot be empty."), false, []⟩
    else if pyFalsy vp then
      ⟨catchResponse (.valueError "Value proposition cannot be empty."), false, []⟩
    else
      let ticker := tk.getD ""
      let value_proposition := vp.getD ""
      match get_financial_data pr with
      | .error e => ⟨catchResponse e, true, []⟩
      | .ok (bs, inc, cf) =>
        let financial_data : FinData := ⟨bs, inc, cf⟩
        let r := insightsLoop ticker value_proposition llm (pySections value_proposition) 0 []
        match r.1 with
        | .error e => ⟨catchResponse e, true, r.2⟩
        | .ok insights =>
          ⟨⟨200, .success financial_data insights (generate_graph_data financial_data)⟩,
           true, r.2⟩

/-- A nonempty string is truthy in the Python sense. -/
theorem pyFalsy_some_of_ne (s : String) (h : s ≠ "") : pyFalsy (Option.some s) = false := by
  show s.isEmpty = false
  rw [Bool.eq_false_iff]
  simpa [String.isEmpty_iff] using h

/-- The body a caught exception produces is always the error object. -/
theorem catchResponse_body (e : PyExc) : (catchResponse e).body = RespBody.error e.text := by
  unfold catchResponse
  split <;> rfl

/-- A non-ValueError exception is answered with status 500. -/
theorem catchResponse_status_of_not_valueError (e : PyExc) (h : e.isValueError = false) :
    (catchResponse e).status = 500 := by
  unfold catchResponse
  rw [h]
  rfl

/-- A ValueError, or a subclass of it, is answered with status 400. -/
theorem catchResponse_status_of_valueError (e : PyExc) (h : e.isValueError = true) :
    (catchResponse e).status = 400 := by
  unfold catchResponse
  rw [h]
  rfl

/-- With nonempty tables the data fetch succeeds. -/
theorem get_financial_data_ok (bs inc cf : FinTable)
    (hbs : bs.isEmpty = false) (hinc : inc.isEmpty = false) (hcf : cf.isEmpty = false) :
    get_financial_data (.tables bs inc cf) = .ok (bs, inc, cf) := by
  simp [get_financial_data, hbs, hinc, hcf]

/-- Keys of a dictionary after one assignment: an existing key leaves
the key sequence unchanged, a new key is appended. -/
theorem dictInsert_keys (k v : String) (d : List (String × String)) :
    (dictInsert k v d).map Prod.fst =
      if k ∈ d.map Prod.fst then d.map Prod.fst else d.map Prod.fst ++ [k] := by
  induction d with
  | nil => simp [dictInsert]
  | cons p rest ih =>
    obtain ⟨k0, v0⟩ := p
    by_cases h : k0 = k
    · subst h
      simp [dictInsert]
    · have hbeq : (k0 == k) = false := by simp [h]
      have hstep : dictInsert k v ((k0, v0) :: rest) = (k0, v0) :: dictInsert k v rest := by
        simp [dictInsert, hbeq]
      rw [hstep]
      simp only [List.map_cons, ih]
      by_cases hm : k ∈ rest.map Prod.fst
      · simp [hm, List.mem_cons, Ne.symm h]
      · simp [hm, List.mem_cons, Ne.symm h]

/-- If the llm oracle fails on a call index the loop will reach, the
loop aborts with the HTTPException of status 500 raised in
generate_insights_from_groq. -/
theorem insightsLoop_error_of_failure (t v : String) (llm : Nat → LLMResult)
    (sections : List String) :
    ∀ (n : Nat) (acc : List (String × String)),
      (∃ k, k < sections.length ∧ (llm (n + k)).isOk = false) →
      ∃ m, (insightsLoop t v llm sections n acc).1 =
        .error (.httpException 500 m) := by
  induction sections with
  | nil =>
    intro n acc h
    obtain ⟨k, hk, _⟩ := h
    exact absurd hk (by simp)
  | cons sec rest ih =>
    intro n acc h
    cases hl : llm n with
    | err m =>
      exact ⟨"Error generating insights: " ++ m, by
        simp [insightsLoop, generate_insights_from_groq, hl]⟩
    | ok text =>
      obtain ⟨k, hk, hko⟩ := h
      cases k with
      | zero =>
        rw [Nat.add_zero, hl] at hko
        simp [LLMResult.isOk] at hko
      | succ j =>
        have hrest : ∃ k, k < rest.length ∧ (llm (n + 1 + k)).isOk = false := by
          refine ⟨j, by simpa using hk, ?_⟩
          have harith : n + 1 + j = n + (j + 1) := by omega
          rw [harith]
          exact hko
        obtain ⟨m, hm⟩ := ih (n + 1) (dictInsert sec text acc) hrest
        exact ⟨m, by simp [insightsLoop, generate_insights_from_groq, hl, hm]⟩

/-- If every llm call succeeds, the loop returns a dictionary whose key
sequence is the fold of Python dictionary assignment over the section
list, and its call trace is exactly one call per section, in order,
with the prompt built for that section and the fixed model. -/
theorem insightsLoop_ok_of_allOk (t v : String) (llm : Nat → LLMResult)
    (hok : ∀ n, (llm n).isOk = true) (sections : List String) :
    ∀ (n : Nat) (acc : List (String × String)),
      ∃ ins, (insightsLoop t v llm sections n acc).1 = .ok ins ∧
        ins.map Prod.fst =
          sections.foldl (fun ks s => if s ∈ ks then ks else ks ++ [s]) (acc.map Prod.fst) ∧
        (insightsLoop t v llm sections n acc).2 =
          sections.map (fun s => ⟨buildPrompt t v s, groqModel⟩) := by
  induction sections with
  | nil =>
    intro n acc
    exact ⟨acc, rfl, rfl, rfl⟩
  | cons sec rest ih =>
    intro n acc
    cases hl : llm n with
    | err m =>
      have hcontra := hok n
      rw [hl] at hcontra
      simp [LLMResult.isOk] at hcontra
    | ok text =>
      obtain ⟨ins, h1, h2, h3⟩ := ih (n + 1) (dictInsert sec text acc)
      refine ⟨ins, ?_, ?_, ?_⟩
      · simp [insightsLoop, generate_insights_from_groq, hl, h1]
      · rw [List.foldl_cons, ← dictInsert_keys sec text acc, ← h2]
      · simp [insightsLoop, generate_insights_from_groq, hl, h3]

/-- A fully successful run of the handler: validation passes, the data
fetch succeeds, every llm call succeeds.  The response is the 200
success object, the graphs are derived from the fetched data, and the
call trace is one call per section. -/
theorem handler_run_ok (t v : String)
    (ht : pyFalsy (Option.some t) = false) (hv : pyFalsy (Option.some v) = false)
    (bs inc cf : FinTable) (hbs : bs.isEmpty = false) (hinc : inc.isEmpty = false)
    (hcf : cf.isEmpty = false) (llm : Nat → LLMResult) (hok : ∀ n, (llm n).isOk = true) :
    ∃ ins,
      generate_insights (.obj (Option.some t) (Option.some v)) (.tables bs inc cf) llm =
        ⟨⟨200, .success ⟨bs, inc, cf⟩ ins (generate_graph_data ⟨bs, inc, cf⟩)⟩, true,
          (pySections v).map (fun s => ⟨buildPrompt t v s, groqModel⟩)⟩ ∧
      ins.map Prod.fst =
        (pySections v).foldl (fun ks s => if s ∈ ks then ks else ks ++ [s]) [] := by
  obtain ⟨ins, h1, h2, h3⟩ := insightsLoop_ok_of_allOk t v llm hok (pySections v) 0 []
  refine ⟨ins, ?_, by simpa using h2⟩
  simp [generate_insights, ht, hv, get_financial_data_ok bs inc cf hbs hinc hcf, h1, h3]

/-- Whatever path the handler takes, a success body carries the graphs
derived from the financial data it carries. -/
theorem generate_insights_success_inv (body : BodyParse) (pr : ProviderResult)
    (llm : Nat → LLMResult) (fd : FinData) (ins : List (String × String))
    (gr : List (String × GraphData))
    (h : (generate_insights body pr llm).response.body = .success fd ins gr) :
    gr = generate_graph_data fd := by
  cases body with
  | badJSON m => simp [generate_insights, catchResponse_body] at h
  | nonObject m => simp [generate_insights, catchResponse_body] at h
  | obj tk vp =>
    cases htk : pyFalsy tk with
    | true => simp [generate_insights, htk, catchResponse_body] at h
    | false =>
      cases hvp : pyFalsy vp with
      | true => simp [generate_insights, htk, hvp, catchResponse_body] at h
      | false =>
        cases hfd : get_financial_data pr with
        | error e => simp [generate_insights, htk, hvp, hfd, catchResponse_body] at h
        | ok triple =>
          obtain ⟨bs, inc, cf⟩ := triple
          cases hloop : (insightsLoop (tk.getD "") (vp.getD "") llm
              (pySections (vp.getD "")) 0 []).1 with
          | error e =>
            simp [generate_insights, htk, hvp, hfd, hloop, catchResponse_body] at h
          | ok ins0 =>
            simp [generate_insights, htk, hvp, hfd, hloop] at h
            rw [← h.2.2, ← h.1]

/-- The dates and result lists of the derived graphs are exactly the
dates of the balance sheet with their numerically filtered line items. -/
theorem generate_graph_data_keys_and_results (fd : FinData) :
    (generate_graph_data fd).map (fun p => (p.1, p.2.result)) =
      fd.balance_sheet.map
        (fun p => (p.1, p.2.filter (fun q => isinstance_int_float q.2))) := by
  unfold generate_graph_data
  rw [List.map_map]
  rfl

/-- Concrete sample financial data used by the witnesses. -/
def sampleRow : List (String × Value) :=
  [("Cash", Value.int 100), ("Note", Value.str "audited"),
   ("Debt", Value.float (Rat.mk' 5 2 (by decide) (by decide))),
   ("Flag", Value.bool true), ("Gap", Value.none)]

/-- Sample balance sheet with one reporting date. -/
def sampleBS : FinTable := [("2023-12-31", sampleRow)]

/-- Sample income statement. -/
def sampleINC : FinTable := [("2023-12-31", [("Revenue", Value.int 7)])]

/-- Sample cash flow statement. -/
def sampleCF : FinTable := [("2023-12-31", [("FreeCashFlow", Value.int 3)])]

/-- Sample provider behaviour returning the three nonempty tables. -/
def samplePR : ProviderResult := .tables sampleBS sampleINC sampleCF

/-- Sample financial data record. -/
def sampleFD : FinData := ⟨sampleBS, sampleINC, sampleCF⟩

/-- An llm oracle for which every call succeeds. -/
def allOkLLM : Nat → LLMResult := fun _ => .ok "generated text"

/-- Claim C1, evaluated on the code: when the provider returns an empty
table, or throws, for a validated ticker, the handler responds with
HTTP status 500, not the 400 the claim states.  get_financial_data
raises HTTPException with status_code 400, but that exception is not a
ValueError, so the generic except branch on lines 158 and 159 converts
it into a 500 response whose error text still shows the swallowed 400. -/
theorem C1_provider_failure_yields_500_not_400 :
    ((generate_insights (.obj (Option.some "ZZZZ") (Option.some "growth"))
        (.tables [] sampleINC sampleCF) allOkLLM).response.status = 500 ∧
      (generate_insights (.obj (Option.some "ZZZZ") (Option.some "growth"))
        (.tables [] sampleINC sampleCF) allOkLLM).response.body =
        .error "400: Error fetching financial data: Invalid ticker symbol or no data available.") ∧
    ((generate_insights (.obj (Option.some "ZZZZ") (Option.some "growth"))
        (.throws "HTTP Error 404") allOkLLM).response.status = 500 ∧
      (generate_insights (.obj (Option.some "ZZZZ") (Option.some "growth"))
        (.throws "HTTP Error 404") allOkLLM).response.body =
        .error "400: Error fetching financial data: HTTP Error 404") := by
  decide

/-- Claim C2: a request whose ticker or value proposition is empty or
absent is answered with status 400 and an error body, and neither the
financial-data provider nor the llm provider is called. -/
theorem C2_invalid_input_400_and_no_external_calls (tk vp : Option String)
    (pr : ProviderResult) (llm : Nat → LLMResult)
    (h : pyFalsy tk = true ∨ pyFalsy vp = true) :
    (generate_insights (.obj tk vp) pr llm).response.status = 400 ∧
    (∃ m, (generate_insights (.obj tk vp) pr llm).response.body = RespBody.error m) ∧
    (generate_insights (.obj tk vp) pr llm).providerCalled = false ∧
    (generate_insights (.obj tk vp) pr llm).llmCalls = [] := by
  cases htk : pyFalsy tk with
  | true =>
    refine ⟨?_, ⟨"Ticker value cannot be empty.", ?_⟩, ?_, ?_⟩ <;>
      simp [generate_insights, htk, catchResponse, PyExc.isValueError, PyExc.text]
  | false =>
    have hvp : pyFalsy vp = true := by
      rcases h with h | h
      · rw [htk] at h
        exact absurd h (by simp)
      · exact h
    refine ⟨?_, ⟨"Value proposition cannot be empty.", ?_⟩, ?_, ?_⟩ <;>
      simp [generate_insights, htk, hvp, catchResponse, PyExc.isValueError, PyExc.text]

/-- Witness for claim C2 at the concrete request with an empty ticker. -/
theorem C2_invalid_input_witness :
    (pyFalsy (Option.some "") = true ∨ pyFalsy (Option.some "growth") = true) ∧
    ((generate_insights (.obj (Option.some "") (Option.some "growth"))
        (.throws "unreached") allOkLLM).response.status = 400 ∧
      (∃ m, (generate_insights (.obj (Option.some "") (Option.some "growth"))
        (.throws "unreached") allOkLLM).response.body = RespBody.error m) ∧
      (generate_insights (.obj (Option.some "") (Option.some "growth"))
        (.throws "unreached") allOkLLM).providerCalled = false ∧
      (generate_insights (.obj (Option.some "") (Option.some "growth"))
        (.throws "unreached") allOkLLM).llmCalls = []) :=
  ⟨Or.inl (by decide),
    C2_invalid_input_400_and_no_external_calls (Option.some "") (Option.some "growth")
      (.throws "unreached") allOkLLM (Or.inl (by decide))⟩

/-- Claim C9, refuted at a concrete input: a body that does not parse
as JSON raises json.JSONDecodeError, which is a subclass of ValueError,
so the invalid-input branch answers it with status 400, not the 500 the
claim states. -/
theorem C9_badJSON_counterexample :
    (generate_insights (.badJSON "Expecting value: line 1 column 1 (char 0)")
        samplePR allOkLLM).response.status = 400 ∧
    (generate_insights (.badJSON "Expecting value: line 1 column 1 (char 0)")
        samplePR allOkLLM).response.status ≠ 500 := by
  decide

/-- Claim C9 as amended: a body that fails to parse as JSON is answered
with status 400 through the ValueError branch, while a body that parses
but does not support field lookup raises AttributeError and is answered
with status 500 through the generic branch; both produce an error body
and make no external calls. -/
theorem C9_amended_parse_failure_statuses (m : String) (pr : ProviderResult)
    (llm : Nat → LLMResult) :
    ((generate_insights (.badJSON m) pr llm).response.status = 400 ∧
      (generate_insights (.badJSON m) pr llm).response.body = RespBody.error m ∧
      (generate_insights (.badJSON m) pr llm).providerCalled = false ∧
      (generate_insights (.badJSON m) pr llm).llmCalls = []) ∧
    ((generate_insights (.nonObject m) pr llm).response.status = 500 ∧
      (generate_insights (.nonObject m) pr llm).response.body = RespBody.error m ∧
      (generate_insights (.nonObject m) pr llm).providerCalled = false ∧
      (generate_insights (.nonObject m) pr llm).llmCalls = []) := by
  refine ⟨⟨?_, ?_, rfl, rfl⟩, ⟨?_, ?_, rfl, rfl⟩⟩ <;>
    simp [generate_insights, catchResponse, PyExc.isValueError, PyExc.text]

/-- A nonempty list has isEmpty false. -/
theorem isEmpty_false_of_ne_nil {α : Type} (l : List α) (h : l ≠ []) : l.isEmpty = false := by
  rw [Bool.eq_false_iff]
  simpa [List.isEmpty_iff] using h

/-- Claim C8: the graph deriver is a deterministic pure function: two
applications to the same financial table yield identical output.  In
the embedding generate_graph_data reads nothing but its argument, so
determinism is definitional. -/
theorem C8_graph_deriver_deterministic (fd1 fd2 : FinData) (h : fd1 = fd2) :
    generate_graph_data fd1 = generate_graph_data fd2 := by
  rw [h]

/-- Witness for claim C8 on the sample financial data. -/
theorem C8_graph_deriver_deterministic_witness :
    sampleFD = sampleFD ∧ generate_graph_data sampleFD = generate_graph_data sampleFD :=
  ⟨rfl, C8_graph_deriver_deterministic sampleFD sampleFD rfl⟩

/-- Claim C7: every entry of the graphs output carries the fixed
success message, the Bar Chart tag, and a data list which is exactly
the result list mapped, in order, to records with the same label, the
same value, and the single fixed colour. -/
theorem C7_answer_payload_shape (fd : FinData) (date : String) (gd : GraphData)
    (h : (date, gd) ∈ generate_graph_data fd) :
    gd.answer.message = "The bar chart has been plotted successfully" ∧
    gd.answer.type = "Bar Chart" ∧
    gd.answer.data = gd.result.map (fun q =>
      { label := q.1, value := q.2, valueColor := barColor }) := by
  unfold generate_graph_data at h
  obtain ⟨p, hp, heq⟩ := List.mem_map.mp h
  injection heq with h1 h2
  subst h2
  exact ⟨rfl, rfl, rfl⟩

/-- Witness for claim C7 on the sample balance sheet date. -/
theorem C7_answer_payload_shape_witness :
    (("2023-12-31", mkGraphEntry "2023-12-31" sampleRow) ∈ generate_graph_data sampleFD) ∧
    ((mkGraphEntry "2023-12-31" sampleRow).answer.message =
        "The bar chart has been plotted successfully" ∧
      (mkGraphEntry "2023-12-31" sampleRow).answer.type = "Bar Chart" ∧
      (mkGraphEntry "2023-12-31" sampleRow).answer.data =
        (mkGraphEntry "2023-12-31" sampleRow).result.map (fun q =>
          { label := q.1, value := q.2, valueColor := barColor })) :=
  ⟨List.Mem.head _,
    C7_answer_payload_shape sampleFD "2023-12-31" (mkGraphEntry "2023-12-31" sampleRow)
      (List.Mem.head _)⟩

/-- Claim C10: a boolean line-item value passes the isinstance numeric
filter, because Python bool subclasses int, and therefore appears both
in the result list and in the answer data list of the corresponding
date. -/
theorem C10_boolean_values_pass_filter (fd : FinData) (date : String)
    (row : List (String × Value)) (k : String) (b : Bool)
    (hrow : (date, row) ∈ fd.balance_sheet) (hkb : (k, Value.bool b) ∈ row) :
    isinstance_int_float (Value.bool b) = true ∧
    ∃ gd, (date, gd) ∈ generate_graph_data fd ∧
      (k, Value.bool b) ∈ gd.result ∧
      ({ label := k, value := Value.bool b, valueColor := barColor } : AnswerItem)
        ∈ gd.answer.data := by
  refine ⟨rfl, mkGraphEntry date row, ?_, ?_, ?_⟩
  · exact List.mem_map.mpr ⟨(date, row), hrow, rfl⟩
  · exact List.mem_filter.mpr ⟨hkb, rfl⟩
  · exact List.mem_map.mpr ⟨(k, Value.bool b), List.mem_filter.mpr ⟨hkb, rfl⟩, rfl⟩

/-- Witness for claim C10 on the sample row, whose Flag item is the
boolean true. -/
theorem C10_boolean_values_pass_filter_witness :
    (("2023-12-31", sampleRow) ∈ sampleFD.balance_sheet) ∧
    (("Flag", Value.bool true) ∈ sampleRow) ∧
    (isinstance_int_float (Value.bool true) = true ∧
      ∃ gd, ("2023-12-31", gd) ∈ generate_graph_data sampleFD ∧
        ("Flag", Value.bool true) ∈ gd.result ∧
        ({ label := "Flag", value := Value.bool true, valueColor := barColor } : AnswerItem)
          ∈ gd.answer.data) :=
  ⟨List.Mem.head _, by simp [sampleRow],
    C10_boolean_values_pass_filter sampleFD "2023-12-31" sampleRow "Flag" true
      (List.Mem.head _) (by simp [sampleRow])⟩

/-- The derived graphs have exactly the dates of the balance sheet, in
order. -/
theorem generate_graph_data_keys (fd : FinData) :
    (generate_graph_data fd).map Prod.fst = fd.balance_sheet.map Prod.fst := by
  unfold generate_graph_data
  rw [List.map_map]
  rfl

/-- Claim C5: for every successful request, the graphs mapping has
exactly one entry per distinct reporting date of the fetched balance
sheet, and the result list of each date holds exactly the line items of
that date whose value passes the numeric isinstance filter, which
excludes strings and null values. -/
theorem C5_graphs_one_entry_per_date_numeric_filter (body : BodyParse)
    (pr : ProviderResult) (llm : Nat → LLMResult) (fd : FinData)
    (ins : List (String × String)) (gr : List (String × GraphData))
    (h : (generate_insights body pr llm).response.body = .success fd ins gr) :
    gr.map (fun p => (p.1, p.2.result)) =
      fd.balance_sheet.map
        (fun p => (p.1, p.2.filter (fun q => isinstance_int_float q.2))) ∧
    gr.map Prod.fst = fd.balance_sheet.map Prod.fst ∧
    ((fd.balance_sheet.map Prod.fst).Nodup → (gr.map Prod.fst).Nodup) := by
  have hgr := generate_insights_success_inv body pr llm fd ins gr h
  subst hgr
  refine ⟨generate_graph_data_keys_and_results fd, generate_graph_data_keys fd, ?_⟩
  intro hnd
  rw [generate_graph_data_keys fd]
  exact hnd

/-- The insights dictionary a fully successful sample request produces. -/
def sampleInsights : List (String × String) :=
  [("Earnings Data Analysis", "generated text"), ("Financial Data Analysis", "generated text"),
   ("Brainstorm Values", "generated text"), ("Financial Prediction", "generated text"),
   ("Key Competitors", "generated text"), ("growth", "generated text")]

/-- Witness for claim C5 on a concrete successful request. -/
theorem C5_graphs_witness :
    ((generate_insights (.obj (Option.some "AAPL") (Option.some "growth"))
        samplePR allOkLLM).response.body =
      RespBody.success sampleFD sampleInsights (generate_graph_data sampleFD)) ∧
    ((generate_graph_data sampleFD).map (fun p => (p.1, p.2.result)) =
        sampleFD.balance_sheet.map
          (fun p => (p.1, p.2.filter (fun q => isinstance_int_float q.2))) ∧
      (generate_graph_data sampleFD).map Prod.fst = sampleFD.balance_sheet.map Prod.fst ∧
      ((sampleFD.balance_sheet.map Prod.fst).Nodup →
        ((generate_graph_data sampleFD).map Prod.fst).Nodup)) :=
  ⟨by decide,
    C5_graphs_one_entry_per_date_numeric_filter
      (BodyParse.obj (Option.some "AAPL") (Option.some "growth")) samplePR allOkLLM
      sampleFD sampleInsights (generate_graph_data sampleFD) (by decide)⟩

/-- An llm oracle for which every call raises a GroqError. -/
def allErrLLM : Nat → LLMResult := fun _ => .err "rate limit exceeded"

/-- Claim C3: if the llm provider errors on a call the sequential loop
reaches, the whole request is answered with status 500 and an error
body, which carries no insights key, so no partial section results are
returned. -/
theorem C3_llm_failure_500_no_partial_results (t v : String) (ht : t ≠ "") (hv : v ≠ "")
    (bs inc cf : FinTable) (hbs : bs ≠ []) (hinc : inc ≠ []) (hcf : cf ≠ [])
    (llm : Nat → LLMResult)
    (hfail : ∃ k, k < (pySections v).length ∧ (llm k).isOk = false) :
    (generate_insights (.obj (Option.some t) (Option.some v))
      (.tables bs inc cf) llm).response.status = 500 ∧
    (∃ m, (generate_insights (.obj (Option.some t) (Option.some v))
      (.tables bs inc cf) llm).response.body = RespBody.error m) ∧
    (generate_insights (.obj (Option.some t) (Option.some v))
      (.tables bs inc cf) llm).response.body.insightsEntries = Option.none := by
  have ht' := pyFalsy_some_of_ne t ht
  have hv' := pyFalsy_some_of_ne v hv
  have hbs' := isEmpty_false_of_ne_nil bs hbs
  have hinc' := isEmpty_false_of_ne_nil inc hinc
  have hcf' := isEmpty_false_of_ne_nil cf hcf
  obtain ⟨m, hm⟩ := insightsLoop_error_of_failure t v llm (pySections v) 0 []
    (by simpa using hfail)
  refine ⟨?_, ⟨(PyExc.httpException 500 m).text, ?_⟩, ?_⟩ <;>
    simp [generate_insights, ht', hv', get_financial_data_ok bs inc cf hbs' hinc' hcf',
      hm, catchResponse, PyExc.isValueError, PyExc.text, RespBody.insightsEntries]

/-- Witness for claim C3: every llm call fails on the sample request. -/
theorem C3_llm_failure_witness :
    ("AAPL" ≠ "" ∧ "growth" ≠ "" ∧
      sampleBS ≠ ([] : FinTable) ∧ sampleINC ≠ ([] : FinTable) ∧ sampleCF ≠ ([] : FinTable) ∧
      (∃ k, k < (pySections "growth").length ∧ (allErrLLM k).isOk = false)) ∧
    ((generate_insights (.obj (Option.some "AAPL") (Option.some "growth"))
        (.tables sampleBS sampleINC sampleCF) allErrLLM).response.status = 500 ∧
      (∃ m, (generate_insights (.obj (Option.some "AAPL") (Option.some "growth"))
        (.tables sampleBS sampleINC sampleCF) allErrLLM).response.body = RespBody.error m) ∧
      (generate_insights (.obj (Option.some "AAPL") (Option.some "growth"))
        (.tables sampleBS sampleINC sampleCF) allErrLLM).response.body.insightsEntries =
        Option.none) :=
  ⟨⟨by decide, by decide, by decide, by decide, by decide, ⟨0, by decide, rfl⟩⟩,
    C3_llm_failure_500_no_partial_results "AAPL" "growth" (by decide) (by decide)
      sampleBS sampleINC sampleCF (by decide) (by decide) (by decide) allErrLLM
      ⟨0, by decide, rfl⟩⟩

/-- Claim C4, refuted at a concrete input: when value_proposition is
the string Key Competitors, the sixth dictionary assignment overwrites
the fixed entry of the same name, so the insights mapping of a
successful response has five entries, not six. -/
theorem C4_collision_counterexample :
    (generate_insights (.obj (Option.some "AAPL") (Option.some "Key Competitors"))
        samplePR allOkLLM).response.body.insightsEntries =
      some [("Earnings Data Analysis", "generated text"),
            ("Financial Data Analysis", "generated text"),
            ("Brainstorm Values", "generated text"),
            ("Financial Prediction", "generated text"),
            ("Key Competitors", "generated text")] ∧
    (generate_insights (.obj (Option.some "AAPL") (Option.some "Key Competitors"))
        samplePR allOkLLM).response.body.insightsEntries.map List.length ≠ some 6 := by
  decide

/-- The fold of Python dictionary assignment over the section list:
the five fixed labels first, then the value proposition, which is
appended only when it differs from every fixed label. -/
theorem pySections_key_fold (v : String) :
    (pySections v).foldl (fun ks s => if s ∈ ks then ks else ks ++ [s]) [] =
      if v ∈ fixedSections then fixedSections else fixedSections ++ [v] := by
  rw [pySections, List.foldl_append]
  have hfixed : fixedSections.foldl (fun ks s => if s ∈ ks then ks else ks ++ [s])
      ([] : List String) = fixedSections := by decide
  rw [hfixed]
  rfl

/-- Claim C4 as amended: for every successful request the insights
mapping has exactly one entry per fixed section label, plus one entry
keyed by the value proposition when it differs from all five fixed
labels; when the value proposition equals a fixed label its assignment
overwrites that entry and the mapping has exactly the five fixed keys. -/
theorem C4_amended_insights_keys (t v : String) (ht : t ≠ "") (hv : v ≠ "")
    (bs inc cf : FinTable) (hbs : bs ≠ []) (hinc : inc ≠ []) (hcf : cf ≠ [])
    (llm : Nat → LLMResult) (hok : ∀ n, (llm n).isOk = true) :
    ∃ ins gr,
      (generate_insights (.obj (Option.some t) (Option.some v))
        (.tables bs inc cf) llm).response.body = .success ⟨bs, inc, cf⟩ ins gr ∧
      ins.map Prod.fst =
        (if v ∈ fixedSections then fixedSections else fixedSections ++ [v]) ∧
      (ins.map Prod.fst).Nodup := by
  have ht' := pyFalsy_some_of_ne t ht
  have hv' := pyFalsy_some_of_ne v hv
  have hbs' := isEmpty_false_of_ne_nil bs hbs
  have hinc' := isEmpty_false_of_ne_nil inc hinc
  have hcf' := isEmpty_false_of_ne_nil cf hcf
  obtain ⟨ins, hrun, hkeys⟩ := handler_run_ok t v ht' hv' bs inc cf hbs' hinc' hcf' llm hok
  have hkeysIf : ins.map Prod.fst =
      if v ∈ fixedSections then fixedSections else fixedSections ++ [v] := by
    rw [hkeys, pySections_key_fold]
  refine ⟨ins, generate_graph_data ⟨bs, inc, cf⟩, ?_, hkeysIf, ?_⟩
  · rw [hrun]
  · rw [hkeysIf]
    by_cases hmem : v ∈ fixedSections
    · rw [if_pos hmem]
      decide
    · rw [if_neg hmem]
      have h1 : fixedSections.Nodup := by decide
      refine h1.append (List.nodup_singleton v) ?_
      intro a ha hb
      rw [List.mem_singleton] at hb
      subst hb
      exact hmem ha

/-- Witness for the amended claim C4 on a concrete request whose value
proposition differs from every fixed label. -/
theorem C4_amended_insights_keys_witness :
    ("AAPL" ≠ "" ∧ "growth" ≠ "" ∧
      sampleBS ≠ ([] : FinTable) ∧ sampleINC ≠ ([] : FinTable) ∧ sampleCF ≠ ([] : FinTable) ∧
      (∀ n, (allOkLLM n).isOk = true)) ∧
    (∃ ins gr,
      (generate_insights (.obj (Option.some "AAPL") (Option.some "growth"))
        (.tables sampleBS sampleINC sampleCF) allOkLLM).response.body =
        .success ⟨sampleBS, sampleINC, sampleCF⟩ ins gr ∧
      ins.map Prod.fst =
        (if "growth" ∈ fixedSections then fixedSections else fixedSections ++ ["growth"]) ∧
      (ins.map Prod.fst).Nodup) :=
  ⟨⟨by decide, by decide, by decide, by decide, by decide, fun _ => rfl⟩,
    C4_amended_insights_keys "AAPL" "growth" (by decide) (by decide)
      sampleBS sampleINC sampleCF (by decide) (by decide) (by decide)
      allOkLLM (fun _ => rfl)⟩

/-- The competitor prompt embeds the section label, the ticker and the
value proposition. -/
theorem competitorPrompt_embeds (sec t v : String) :
    (∃ a b, competitorPrompt sec t v = a ++ (sec ++ b)) ∧
    (∃ a b, competitorPrompt sec t v = a ++ (t ++ b)) ∧
    (∃ a b, competitorPrompt sec t v = a ++ (v ++ b)) := by
  refine ⟨⟨"\n                Section: ",
      "\n                Company: " ++ t ++ "   " ++
      "\n                Value Proposition: " ++ v ++
      "\n                \n                Identify and analyze key competitors of the company.\n                ", ?_⟩,
    ⟨"\n                Section: " ++ sec ++ "\n                Company: ",
      "   " ++ "\n                Value Proposition: " ++ v ++
      "\n                \n                Identify and analyze key competitors of the company.\n                ", ?_⟩,
    ⟨"\n                Section: " ++ sec ++ "\n                Company: " ++ t ++ "   " ++
      "\n                Value Proposition: ",
      "\n                \n                Identify and analyze key competitors of the company.\n                ", ?_⟩⟩ <;>
  simp [competitorPrompt, String.append_assoc]

/-- The generic prompt embeds the section label, the ticker and the
value proposition. -/
theorem genericPrompt_embeds (sec t v : String) :
    (∃ a b, genericPrompt sec t v = a ++ (sec ++ b)) ∧
    (∃ a b, genericPrompt sec t v = a ++ (t ++ b)) ∧
    (∃ a b, genericPrompt sec t v = a ++ (v ++ b)) := by
  refine ⟨⟨"\n                Section: ",
      "\n                Company: " ++ t ++
      "\n                Value Proposition: " ++ v ++
      "\n                \n                Analyze the information and provide detailed insights.\n                ", ?_⟩,
    ⟨"\n                Section: " ++ sec ++ "\n                Company: ",
      "\n                Value Proposition: " ++ v ++
      "\n                \n                Analyze the information and provide detailed insights.\n                ", ?_⟩,
    ⟨"\n                Section: " ++ sec ++ "\n                Company: " ++ t ++
      "\n                Value Proposition: ",
      "\n                \n                Analyze the information and provide detailed insights.\n                ", ?_⟩⟩ <;>
  simp [genericPrompt, String.append_assoc]

/-- Claim C6: on a fully successful request the handler issues exactly
one chat-completion call per section of the sequential loop, in order,
each with the fixed model identifier; every prompt embeds the section
label, the ticker and the value proposition; the section labelled Key
Competitors uses the competitor template and every other section uses
the generic template. -/
theorem C6_one_call_per_section_templates (t v : String) (ht : t ≠ "") (hv : v ≠ "")
    (bs inc cf : FinTable) (hbs : bs ≠ []) (hinc : inc ≠ []) (hcf : cf ≠ [])
    (llm : Nat → LLMResult) (hok : ∀ n, (llm n).isOk = true) :
    (generate_insights (.obj (Option.some t) (Option.some v))
        (.tables bs inc cf) llm).llmCalls =
      (pySections v).map (fun s => ⟨buildPrompt t v s, groqModel⟩) ∧
    groqModel = "llama3-8b-8192" ∧
    (∀ s, (∃ a b, buildPrompt t v s = a ++ (s ++ b)) ∧
      (∃ a b, buildPrompt t v s = a ++ (t ++ b)) ∧
      (∃ a b, buildPrompt t v s = a ++ (v ++ b))) ∧
    buildPrompt t v "Key Competitors" = competitorPrompt "Key Competitors" t v ∧
    (∀ s, s ≠ "Key Competitors" → buildPrompt t v s = genericPrompt s t v) := by
  have ht' := pyFalsy_some_of_ne t ht
  have hv' := pyFalsy_some_of_ne v hv
  have hbs' := isEmpty_false_of_ne_nil bs hbs
  have hinc' := isEmpty_false_of_ne_nil inc hinc
  have hcf' := isEmpty_false_of_ne_nil cf hcf
  obtain ⟨ins, hrun, _⟩ := handler_run_ok t v ht' hv' bs inc cf hbs' hinc' hcf' llm hok
  refine ⟨by rw [hrun], rfl, ?_, by simp [buildPrompt], ?_⟩
  · intro s
    by_cases hs : s = "Key Competitors"
    · subst hs
      have hb : buildPrompt t v "Key Competitors" =
          competitorPrompt "Key Competitors" t v := by simp [buildPrompt]
      rw [hb]
      exact competitorPrompt_embeds "Key Competitors" t v
    · have hb : buildPrompt t v s = genericPrompt s t v := by simp [buildPrompt, hs]
      rw [hb]
      exact genericPrompt_embeds s t v
  · intro s hs
    simp [buildPrompt, hs]

/-- Witness for claim C6 on a concrete fully successful request. -/
theorem C6_one_call_per_section_witness :
    ("AAPL" ≠ "" ∧ "growth" ≠ "" ∧
      sampleBS ≠ ([] : FinTable) ∧ sampleINC ≠ ([] : FinTable) ∧ sampleCF ≠ ([] : FinTable) ∧
      (∀ n, (allOkLLM n).isOk = true)) ∧
    ((generate_insights (.obj (Option.some "AAPL") (Option.some "growth"))
        (.tables sampleBS sampleINC sampleCF) allOkLLM).llmCalls =
      (pySections "growth").map (fun s => ⟨buildPrompt "AAPL" "growth" s, groqModel⟩) ∧
    groqModel = "llama3-8b-8192" ∧
    (∀ s, (∃ a b, buildPrompt "AAPL" "growth" s = a ++ (s ++ b)) ∧
      (∃ a b, buildPrompt "AAPL" "growth" s = a ++ ("AAPL" ++ b)) ∧
      (∃ a b, buildPrompt "AAPL" "growth" s = a ++ ("growth" ++ b))) ∧
    buildPrompt "AAPL" "growth" "Key Competitors" =
      competitorPrompt "Key Competitors" "AAPL" "growth" ∧
    (∀ s, s ≠ "Key Competitors" →
      buildPrompt "AAPL" "growth" s = genericPrompt s "AAPL" "growth")) :=
  ⟨⟨by decide, by decide, by decide, by decide, by decide, fun _ => rfl⟩,
    C6_one_call_per_section_templates "AAPL" "growth" (by decide) (by decide)
      sampleBS sampleINC sampleCF (by decide) (by decide) (by decide)
      allOkLLM (fun _ => rfl)⟩
